import Mathlib

/-!
Shallow embedding of the Web3 Wallet Analyzer core (src/utils.py,
src/models.py, src/chain_providers.py, src/wallet_analyzer.py).

Modelling conventions:
* Python floats are modelled as rationals (ℚ).  Every arithmetic operation
  appearing in the source (division by a power of ten, sums, products,
  `round(x, n)`) is exact on the values the claims touch, so ℚ is a faithful
  carrier for them.
* Python `round(x, n)` (banker's rounding, half to even) is `pyRound n x`.
* Addresses are lists of characters; `str.strip()` is `trimChars` and the
  anchored regular expressions of `detect_address_type` are the `matches*`
  Boolean functions (a `re.match` of a `^...$` pattern on the stripped
  string is a full match).
* `datetime` values are modelled by their epoch timestamp as a rational.
* Network interaction is modelled by environments: each provider function
  takes the decoded HTTP/RPC outcome it would have observed as an argument
  (`Except PyExc ...` where the error side is the exception the HTTP layer
  would raise).
-/

namespace WalletAgent

/-- Python exceptions that the analyzer code distinguishes:
`PermissionError` (raised by `EVMChainProvider._api_call` on an auth
rejection), `ValueError` (raised by `WalletAnalyzer.analyze` on validation
failure), and everything else (network / HTTP / decode errors). -/
inductive PyExc where
  | permissionError (msg : String)
  | valueError (msg : String)
  | httpError
  | otherError
  deriving DecidableEq, Repr

/-- `isinstance(e, PermissionError)` — wallet_analyzer.py line 70. -/
def PyExc.isPermissionError : PyExc → Bool
  | .permissionError _ => true
  | _ => false

/- ── Python rounding (utils-level arithmetic) ──────────────────────────── -/

/-- Python `round` to an integer: round half to even. -/
def roundHalfEven (x : ℚ) : ℤ :=
  let f : ℤ := ⌊x⌋
  if x - f < 1/2 then f
  else if 1/2 < x - f then f + 1
  else if f % 2 = 0 then f else f + 1

/-- Python `round(x, n)` for `n ≥ 0`. -/
def pyRound (n : ℕ) (x : ℚ) : ℚ :=
  (roundHalfEven (x * 10 ^ n) : ℚ) / 10 ^ n

theorem abs_roundHalfEven_sub_le (x : ℚ) : |(roundHalfEven x : ℚ) - x| ≤ 1/2 := by
  have hle : (⌊x⌋ : ℚ) ≤ x := Int.floor_le x
  have hlt : x < (⌊x⌋ : ℚ) + 1 := Int.lt_floor_add_one x
  unfold roundHalfEven
  by_cases h1 : x - (⌊x⌋ : ℚ) < 1/2
  · simp only [h1, if_true]
    rw [abs_sub_comm, abs_of_nonneg (by linarith)]
    linarith
  · simp only [h1, if_false]
    by_cases h2 : 1/2 < x - (⌊x⌋ : ℚ)
    · simp only [h2, if_true]
      push_cast
      rw [abs_of_nonneg (by linarith)]
      linarith
    · have hxe : x - (⌊x⌋ : ℚ) = 1/2 := le_antisymm (not_lt.mp h2) (not_lt.mp h1)
      by_cases h3 : ⌊x⌋ % 2 = 0
      · simp only [h2, if_false, h3, if_true]
        rw [abs_sub_comm, abs_of_nonneg (by linarith)]
        linarith
      · simp only [h2, if_false, h3, if_false]
        push_cast
        rw [abs_of_nonneg (by linarith)]
        linarith

theorem abs_pyRound_sub_le (n : ℕ) (x : ℚ) :
    |pyRound n x - x| ≤ 1 / (2 * 10 ^ n) := by
  have h := abs_roundHalfEven_sub_le (x * 10 ^ n)
  have hpow : (0 : ℚ) < 10 ^ n := by positivity
  have key : pyRound n x - x =
      ((roundHalfEven (x * 10 ^ n) : ℚ) - x * 10 ^ n) / 10 ^ n := by
    unfold pyRound
    field_simp
    ring
  have hgoal : (1 : ℚ) / (2 * 10 ^ n) = (1/2) / 10 ^ n := by ring
  rw [key, abs_div, abs_of_pos hpow, hgoal]
  gcongr

theorem pyRound_nonneg (n : ℕ) (x : ℚ) (hx : 0 ≤ x) : 0 ≤ pyRound n x := by
  have hpow : (0 : ℚ) < 10 ^ n := by positivity
  have hfl : (0 : ℤ) ≤ ⌊x * 10 ^ n⌋ := Int.floor_nonneg.mpr (by positivity)
  unfold pyRound roundHalfEven
  apply div_nonneg _ (le_of_lt hpow)
  by_cases h1 : x * 10 ^ n - (⌊x * 10 ^ n⌋ : ℚ) < 1/2
  · simp only [h1, if_true]; exact_mod_cast hfl
  · simp only [h1, if_false]
    by_cases h2 : 1/2 < x * 10 ^ n - (⌊x * 10 ^ n⌋ : ℚ)
    · simp only [h2, if_true]; push_cast; linarith [(show (0:ℚ) ≤ ⌊x * 10 ^ n⌋ by exact_mod_cast hfl)]
    · by_cases h3 : ⌊x * 10 ^ n⌋ % 2 = 0
      · simp only [h2, if_false, h3, if_true]; exact_mod_cast hfl
      · simp only [h2, if_false, h3, if_false]
        push_cast
        linarith [(show (0:ℚ) ≤ ⌊x * 10 ^ n⌋ by exact_mod_cast hfl)]

/- ── utils.py: unit conversions ────────────────────────────────────────── -/

/-- utils.py line 58: `int(wei) / 1e18`. -/
def wei_to_ether (wei : ℤ) : ℚ := (wei : ℚ) / 10 ^ 18

/-- utils.py line 62: `int(lamports) / 1e9`. -/
def lamports_to_sol (lamports : ℤ) : ℚ := (lamports : ℚ) / 10 ^ 9

/-- utils.py line 66: `int(satoshi) / 1e8`. -/
def satoshi_to_btc (satoshi : ℤ) : ℚ := (satoshi : ℚ) / 10 ^ 8

/-- chain_providers.py line 644: `param.get("amount", 0) / 1e6  # SUN -> TRX`. -/
def sun_to_trx (amount : ℤ) : ℚ := (amount : ℚ) / 10 ^ 6

/- ── utils.py: address classification ──────────────────────────────────── -/

/-- Whitespace characters stripped by Python `str.strip()` (ASCII range;
the address patterns involve only ASCII). -/
def pyIsSpace (c : Char) : Bool :=
  c = ' ' || c = '\t' || c = '\n' || c = '\r' || c = '\x0b' || c = '\x0c'

/-- `str.strip()` on a character list. -/
def trimChars (cs : List Char) : List Char :=
  ((cs.dropWhile pyIsSpace).reverse.dropWhile pyIsSpace).reverse

/-- Regex class `[a-fA-F0-9]`. -/
def isHexChar (c : Char) : Bool :=
  c.isDigit || ('a' ≤ c && c ≤ 'f') || ('A' ≤ c && c ≤ 'F')

/-- Regex class `[a-km-zA-HJ-NP-Z1-9]` (base58 alphabet). -/
def isBase58Char (c : Char) : Bool :=
  ('1' ≤ c && c ≤ '9') || ('A' ≤ c && c ≤ 'H') || ('J' ≤ c && c ≤ 'N') ||
  ('P' ≤ c && c ≤ 'Z') || ('a' ≤ c && c ≤ 'k') || ('m' ≤ c && c ≤ 'z')

/-- Regex class `[a-zA-HJ-NP-Z0-9]` (bech32 body in utils.py line 19). -/
def isBech32Char (c : Char) : Bool :=
  ('a' ≤ c && c ≤ 'z') || ('A' ≤ c && c ≤ 'H') || ('J' ≤ c && c ≤ 'N') ||
  ('P' ≤ c && c ≤ 'Z') || c.isDigit

/-- Regex class `[a-zA-Z0-9]`. -/
def isAlnumChar (c : Char) : Bool := c.isAlpha || c.isDigit

/-- utils.py line 11: `^0x[a-fA-F0-9]{40}$`. -/
def matchesEVM (cs : List Char) : Bool :=
  match cs with
  | c0 :: c1 :: rest =>
      c0 = '0' && c1 = 'x' && rest.length = 40 && rest.all isHexChar
  | _ => false

/-- utils.py line 15: `^(1|3)[a-km-zA-HJ-NP-Z1-9]{25,34}$`. -/
def matchesBtcLegacy (cs : List Char) : Bool :=
  match cs with
  | c0 :: rest =>
      (c0 = '1' || c0 = '3') && decide (25 ≤ rest.length) &&
      decide (rest.length ≤ 34) && rest.all isBase58Char
  | _ => false

/-- utils.py line 19: `^bc1[a-zA-HJ-NP-Z0-9]{25,90}$`. -/
def matchesBech32 (cs : List Char) : Bool :=
  match cs with
  | c0 :: c1 :: c2 :: rest =>
      c0 = 'b' && c1 = 'c' && c2 = '1' && decide (25 ≤ rest.length) &&
      decide (rest.length ≤ 90) && rest.all isBech32Char
  | _ => false

/-- utils.py line 23: `^T[a-zA-Z0-9]{33}$`. -/
def matchesTron (cs : List Char) : Bool :=
  match cs with
  | c0 :: rest => c0 = 'T' && rest.length = 33 && rest.all isAlnumChar
  | _ => false

/-- utils.py line 27: `^[1-9A-HJ-NP-Za-km-z]{32,44}$`. -/
def matchesSolana (cs : List Char) : Bool :=
  decide (32 ≤ cs.length) && decide (cs.length ≤ 44) && cs.all isBase58Char

/-- models.py `AddressType`. -/
inductive AddressType where
  | evm | solana | bitcoin | tron | unknown
  deriving DecidableEq, Repr

/-- The `.value` string of each enum member. -/
def AddressType.value : AddressType → String
  | .evm => "evm"
  | .solana => "solana"
  | .bitcoin => "bitcoin"
  | .tron => "tron"
  | .unknown => "unknown"

/-- The rule chain of utils.py lines 10-30, applied to the already
stripped address. -/
def detectCore (cs : List Char) : AddressType :=
  if matchesEVM cs then .evm
  else if matchesBtcLegacy cs then .bitcoin
  else if matchesBech32 cs then .bitcoin
  else if matchesTron cs then .tron
  else if matchesSolana cs then .solana
  else .unknown

/-- utils.py `detect_address_type` (strips its argument first, line 8). -/
def detect_address_type (cs : List Char) : AddressType :=
  detectCore (trimChars cs)

/-- utils.py `get_chains_for_address`. -/
def get_chains_for_address (cs : List Char) : List String :=
  match detect_address_type cs with
  | .evm => ["ethereum", "polygon", "bsc", "arbitrum",
             "optimism", "avalanche", "base", "fantom"]
  | .solana => ["solana"]
  | .bitcoin => ["bitcoin"]
  | .tron => ["tron"]
  | .unknown => []

/- ── models.py: core data model ────────────────────────────────────────── -/

/-- models.py `Transaction`.  `datetime` fields carry the epoch timestamp. -/
structure Transaction where
  hash : String := ""
  chain : String := ""
  block_number : Option ℤ := none
  timestamp : Option ℚ := none
  from_address : String := ""
  to_address : Option String := none
  value : ℚ := 0
  value_usd : ℚ := 0
  gas_used : Option ℤ := none
  gas_price : Option ℤ := none
  gas_fee : Option ℚ := none
  gas_fee_usd : Option ℚ := none
  token_symbol : Option String := none
  token_name : Option String := none
  is_incoming : Bool := false
  is_token_transfer : Bool := false
  method : Option String := none
  deriving DecidableEq, Repr

/-- models.py `TokenBalance`. -/
structure TokenBalance where
  chain : String := ""
  symbol : String := ""
  name : Option String := none
  balance : ℚ := 0
  balance_usd : ℚ := 0
  contract_address : Option String := none
  decimals : ℤ := 18
  deriving DecidableEq, Repr

/-- models.py `ChainSummary`. -/
structure ChainSummary where
  chain : String := ""
  chain_name : String := ""
  native_symbol : String := ""
  total_transactions : ℤ := 0
  incoming_transactions : ℤ := 0
  outgoing_transactions : ℤ := 0
  total_received : ℚ := 0
  total_received_usd : ℚ := 0
  total_sent : ℚ := 0
  total_sent_usd : ℚ := 0
  total_gas_spent : ℚ := 0
  total_gas_spent_usd : ℚ := 0
  native_balance : ℚ := 0
  native_balance_usd : ℚ := 0
  token_holdings : List TokenBalance := []
  first_transaction_date : Option ℚ := none
  last_transaction_date : Option ℚ := none
  unique_contracts_interacted : ℤ := 0
  token_transfers_count : ℤ := 0
  deriving DecidableEq, Repr

/-- One entry of `top_chains_by_transactions` (a dict in the source,
wallet_analyzer.py lines 127-137). -/
structure TopChainEntry where
  chain : String
  transactions : ℤ
  volume_usd : ℚ
  current_balance_usd : ℚ
  deriving DecidableEq, Repr

/-- models.py `WalletReport` (the `address` is kept as a character list,
like every address in this development). -/
structure WalletReport where
  address : List Char := []
  address_type : String := ""
  chains_analyzed : List String := []
  chains_with_activity : List String := []
  total_transactions : ℤ := 0
  total_received_usd : ℚ := 0
  total_sent_usd : ℚ := 0
  total_gas_spent_usd : ℚ := 0
  net_flow_usd : ℚ := 0
  total_current_balance_usd : ℚ := 0
  chain_summaries : List ChainSummary := []
  all_token_holdings : List TokenBalance := []
  top_chains_by_transactions : List TopChainEntry := []
  first_activity : Option ℚ := none
  last_activity : Option ℚ := none
  wallet_age_days : Option ℤ := none
  ai_insights : Option String := none
  warnings : List String := []
  deriving DecidableEq, Repr

/- ── Python list sorting with  key=...  and  reverse=True ──────────────── -/

/-- Insert `x` into a list already sorted by `key`, descending, keeping
ties in order (`list.sort` is stable). -/
def insertDescBy {α β : Type} [LinearOrder β] (key : α → β) (x : α) :
    List α → List α
  | [] => [x]
  | y :: ys => if key y ≤ key x then x :: y :: ys else y :: insertDescBy key x ys

/-- `l.sort(key=key, reverse=True)`: a stable sort, descending in `key`.
A stable sort is extensionally unique, so insertion sort is an exact model
of Python's sort. -/
def sortDescBy {α β : Type} [LinearOrder β] (key : α → β) : List α → List α
  | [] => []
  | x :: xs => insertDescBy key x (sortDescBy key xs)

theorem perm_insertDescBy {α β : Type} [LinearOrder β] (key : α → β) (x : α) :
    ∀ l : List α, List.Perm (insertDescBy key x l) (x :: l)
  | [] => List.Perm.refl _
  | y :: ys => by
      unfold insertDescBy
      by_cases h : key y ≤ key x
      · simp [h]
      · simp only [h, if_false]
        exact ((perm_insertDescBy key x ys).cons y).trans (List.Perm.swap x y ys)

theorem perm_sortDescBy {α β : Type} [LinearOrder β] (key : α → β) :
    ∀ l : List α, List.Perm (sortDescBy key l) l
  | [] => List.Perm.refl _
  | x :: xs =>
      (perm_insertDescBy key x (sortDescBy key xs)).trans
        ((perm_sortDescBy key xs).cons x)

theorem mem_sortDescBy {α β : Type} [LinearOrder β] (key : α → β)
    (l : List α) (x : α) : x ∈ sortDescBy key l ↔ x ∈ l :=
  (perm_sortDescBy key l).mem_iff

theorem pairwise_insertDescBy {α β : Type} [LinearOrder β] (key : α → β)
    (x : α) : ∀ l : List α,
    List.Pairwise (fun a b => key b ≤ key a) l →
    List.Pairwise (fun a b => key b ≤ key a) (insertDescBy key x l)
  | [], _ => List.pairwise_singleton _ x
  | y :: ys, h => by
      rcases List.pairwise_cons.mp h with ⟨hy, hys⟩
      unfold insertDescBy
      by_cases hxy : key y ≤ key x
      · simp only [hxy, if_true]
        refine List.pairwise_cons.mpr ⟨?_, h⟩
        intro b hb
        rcases List.mem_cons.mp hb with hb | hb
        · exact hb ▸ hxy
        · exact le_trans (hy b hb) hxy
      · simp only [hxy, if_false]
        refine List.pairwise_cons.mpr ⟨?_, pairwise_insertDescBy key x ys hys⟩
        intro b hb
        rcases List.mem_cons.mp ((perm_insertDescBy key x ys).mem_iff.mp hb)
          with hb | hb
        · exact hb ▸ le_of_lt (lt_of_not_le hxy)
        · exact hy b hb

theorem pairwise_sortDescBy {α β : Type} [LinearOrder β] (key : α → β) :
    ∀ l : List α, List.Pairwise (fun a b => key b ≤ key a) (sortDescBy key l)
  | [] => List.Pairwise.nil
  | x :: xs => pairwise_insertDescBy key x _ (pairwise_sortDescBy key xs)

/- ── small Python-dict / list helpers ──────────────────────────────────── -/

/-- `d.get(k, default)` for an association list with unique keys. -/
def dictGet {α : Type} (d : List (String × α)) (k : String) (default : α) : α :=
  match d.find? (fun kv => kv.1 = k) with
  | some kv => kv.2
  | none => default

/-- `min(l)` of a non-empty Python list, `none` on `[]` (the source always
guards with a non-emptiness check). -/
def listMin (l : List ℚ) : Option ℚ :=
  l.foldl (fun acc x =>
    match acc with
    | none => some x
    | some m => some (min m x)) none

/-- `max(l)`, as `listMin`. -/
def listMax (l : List ℚ) : Option ℚ :=
  l.foldl (fun acc x =>
    match acc with
    | none => some x
    | some m => some (max m x)) none

/-- `s.lower()` (ASCII). -/
def pyLower (s : String) : String := ⟨s.toList.map Char.toLower⟩

/-- `s.upper()` (ASCII). -/
def pyUpper (s : String) : String := ⟨s.toList.map Char.toUpper⟩

/-- `s.replace(".E", ".e")` on a character list: non-overlapping
occurrences, scanned left to right, scanning resumes after each
replacement. -/
def replaceDotE : List Char → List Char
  | [] => []
  | [c] => [c]
  | c1 :: c2 :: rest =>
      if c1 = '.' ∧ c2 = 'E' then '.' :: 'e' :: replaceDotE rest
      else c1 :: replaceDotE (c2 :: rest)

/-- `s.replace(".E", ".e")`. -/
def pyReplaceDotE (s : String) : String := ⟨replaceDotE s.toList⟩

/-- Whether `needle` occurs at the head of `hay`. -/
def leadsWith : List Char → List Char → Bool
  | [], _ => true
  | _ :: _, [] => false
  | a :: as, b :: bs => a = b && leadsWith as bs

/-- Python `needle in hay` on strings: substring containment. -/
def containsSub (needle : List Char) : List Char → Bool
  | [] => leadsWith needle []
  | c :: rest => leadsWith needle (c :: rest) || containsSub needle rest

/- ── chain_providers.py: EVM provider (Etherscan-compatible) ───────────── -/

/-- The `"result"` field of a decoded Etherscan JSON response: either a
string (error / info messages, numeric values as delivered by the
`balance`-style endpoints) or a list of records. -/
inductive EsResult (α : Type) where
  | msg (s : String)
  | records (l : List α)
  deriving DecidableEq, Repr

/-- A decoded Etherscan JSON response.  For the numeric endpoints
(`balance`, `tokenbalance`) the payload type is `ℤ` and `records [n]`
stands for a result string that parses as the integer `n`; a
non-numeric result string is `msg s` (its `int(...)` conversion raises). -/
structure EsResp (α : Type) where
  status : String
  result : EsResult α
  deriving DecidableEq, Repr

/-- Python truthiness of `data.get("result")`. -/
def EsResult.truthy {α : Type} : EsResult α → Bool
  | .msg s => !(s == "")
  | .records l => !l.isEmpty

/-- chain_providers.py line 123:
`data.get("status") == "0" and "API Key" in data.get("result", "")`
(`in` on a list of records is membership and never matches a string). -/
def esAuthReject {α : Type} (d : EsResp α) : Bool :=
  d.status == "0" &&
    (match d.result with
     | .msg s => containsSub "API Key".toList s.toList
     | .records _ => false)

/-- `EVMChainProvider._api_call` (chain_providers.py lines 113-128): the
environment supplies the decoded response (or the HTTP-level exception);
an auth rejection is turned into a distinct `PermissionError`. -/
def api_call {α : Type} (resp : Except PyExc (EsResp α)) :
    Except PyExc (EsResp α) :=
  match resp with
  | .error e => .error e
  | .ok d =>
      if esAuthReject d then
        .error (.permissionError
          "ETHERSCAN_API_KEY missing or invalid. Get a free key at https://etherscan.io/apis")
      else .ok d

/-- One raw record of the `txlist` endpoint (the fields the source reads;
numeric strings are already decoded to integers). -/
structure RawEvmTx where
  hash : String := ""
  blockNumber : ℤ := 0
  timeStamp : Option ℤ := none
  fromAddr : String := ""
  toAddr : String := ""
  value : ℤ := 0
  gasUsed : ℤ := 0
  gasPrice : ℤ := 0
  functionName : String := ""
  deriving DecidableEq, Repr

/-- chain_providers.py lines 145-175: one normal transaction. -/
def evmMkTransaction (chain address : String) (tx : RawEvmTx) : Transaction :=
  { hash := tx.hash
    chain := chain
    block_number := some tx.blockNumber
    timestamp := tx.timeStamp.map (fun t => (t : ℚ))
    from_address := tx.fromAddr
    to_address := some tx.toAddr
    value := wei_to_ether tx.value
    gas_used := some tx.gasUsed
    gas_price := some tx.gasPrice
    gas_fee := some (wei_to_ether (tx.gasUsed * tx.gasPrice))
    is_incoming := pyLower tx.toAddr == pyLower address
    method := if tx.functionName == "" then none
              else some ⟨tx.functionName.toList.takeWhile (fun c => c != '(')⟩ }

/-- `EVMChainProvider.get_transactions` (lines 130-176).  When the response
reports `status == "1"` with a truthy string result, iterating it raises an
`AttributeError` on the first element, modelled as `otherError`. -/
def evmGetTransactions (chain address : String)
    (resp : Except PyExc (EsResp RawEvmTx)) : Except PyExc (List Transaction) :=
  match api_call resp with
  | .error e => .error e
  | .ok d =>
      if !(d.status == "1") || !d.result.truthy then .ok []
      else
        match d.result with
        | .msg _ => .error .otherError
        | .records l => .ok (l.map (evmMkTransaction chain address))

/-- One raw record of the `tokentx` endpoint. -/
structure RawTokenTx where
  hash : String := ""
  blockNumber : ℤ := 0
  timeStamp : Option ℤ := none
  fromAddr : String := ""
  toAddr : String := ""
  value : ℤ := 0
  tokenDecimal : ℤ := 18
  tokenSymbol : String := ""
  tokenName : String := ""
  contractAddress : String := ""
  deriving DecidableEq, Repr

/-- chain_providers.py lines 194-222: one token-transfer transaction. -/
def evmMkTokenTransaction (chain address : String) (tx : RawTokenTx) :
    Transaction :=
  { hash := tx.hash
    chain := chain
    block_number := some tx.blockNumber
    timestamp := tx.timeStamp.map (fun t => (t : ℚ))
    from_address := tx.fromAddr
    to_address := some tx.toAddr
    value := (tx.value : ℚ) / (10 : ℚ) ^ tx.tokenDecimal
    is_incoming := pyLower tx.toAddr == pyLower address
    is_token_transfer := true
    token_symbol := some tx.tokenSymbol
    token_name := some tx.tokenName }

/-- `EVMChainProvider._get_token_transfers` (lines 178-223), kept as the
raw `[:500]` slice: the extra `_contract_address` / `_decimals` attributes
stored on each transaction live in the raw record. -/
def evmGetTokenTransfersRaw (resp : Except PyExc (EsResp RawTokenTx)) :
    Except PyExc (List RawTokenTx) :=
  match api_call resp with
  | .error e => .error e
  | .ok d =>
      if !(d.status == "1") || !d.result.truthy then .ok []
      else
        match d.result with
        | .msg _ => .error .otherError
        | .records l => .ok (l.take 500)

/-- chain_providers.py line 90. -/
def _STABLECOIN_SYMBOLS : List String :=
  ["USDC", "USDT", "DAI", "BUSD", "TUSD", "FRAX", "LUSD", "USDP",
   "USDC.e", "USDT.e"]

/-- chain_providers.py line 91. -/
def _WRAPPED_NATIVE : List String :=
  ["WETH", "WBNB", "WMATIC", "WPOL", "WAVAX", "WFTM"]

/-- `EVMChainProvider._estimate_token_usd` (lines 337-345). -/
def _estimate_token_usd (symbol : String) (balance native_price : ℚ) : ℚ :=
  let upper := pyReplaceDotE (pyUpper symbol)
  if _STABLECOIN_SYMBOLS.contains upper ||
     _STABLECOIN_SYMBOLS.contains (pyReplaceDotE upper) then balance * 1
  else if _WRAPPED_NATIVE.contains upper then balance * native_price
  else 0

/-- `EVMChainProvider._get_native_balance` (lines 225-239): every failure
(including an auth rejection) is caught and yields `0.0`. -/
def evmGetNativeBalance (resp : Except PyExc (EsResp ℤ)) : ℚ :=
  match api_call resp with
  | .error _ => 0
  | .ok d =>
      if d.status == "1" && d.result.truthy then
        match d.result with
        | .records (n :: _) => wei_to_ether n
        | _ => 0
      else 0

/-- One entry of the `token_map` dict built in `_get_token_holdings`
(lines 246-256). -/
structure ContractInfo where
  symbol : String
  name : String
  contract : String
  decimals : ℤ
  deriving DecidableEq, Repr

/-- chain_providers.py lines 246-256: collect unique tokens from the raw
token transfers, first record per (lowercased) contract address wins,
insertion order preserved (Python dicts are ordered). -/
def buildTokenMap (l : List RawTokenTx) : List ContractInfo :=
  (l.foldl (fun (acc : List (String × ContractInfo)) tx =>
    if tx.tokenSymbol != "" && tx.contractAddress != "" then
      let key := pyLower tx.contractAddress
      if acc.any (fun kv => kv.1 == key) then acc
      else acc ++ [(key,
        { symbol := tx.tokenSymbol
          name := if tx.tokenName == "" then tx.tokenSymbol else tx.tokenName
          contract := tx.contractAddress
          decimals := tx.tokenDecimal })]
    else acc) []).map (fun kv => kv.2)

/-- One raw record of the `addresstokenbalance` endpoint (string keys with
both spellings collapsed; an absent name is the empty string). -/
structure RawAddrTokenBal where
  decimals : ℤ := 18
  quantity : ℤ := 0
  symbol : String := ""
  name : String := ""
  contract : String := ""
  deriving DecidableEq, Repr

/-- `EVMChainProvider._try_address_token_balance` (lines 301-335): every
failure is caught and yields `[]`; items with non-positive decimal-adjusted
balance are skipped; `balance = raw` when `decimals` is falsy (zero). -/
def _try_address_token_balance (chain : String)
    (resp : Except PyExc (EsResp RawAddrTokenBal)) (price_usd : ℚ) :
    List TokenBalance :=
  match api_call resp with
  | .error _ => []
  | .ok d =>
      if d.status == "1" then
        match d.result with
        | .records items =>
            items.filterMap (fun item =>
              let balance : ℚ :=
                if item.decimals ≠ 0 then
                  (item.quantity : ℚ) / (10 : ℚ) ^ item.decimals
                else (item.quantity : ℚ)
              if 0 < balance then
                some { chain := chain
                       symbol := item.symbol
                       name := some (if item.name == "" then item.symbol
                                     else item.name)
                       balance := pyRound 6 balance
                       balance_usd := pyRound 2
                         (_estimate_token_usd item.symbol balance price_usd)
                       contract_address := some item.contract
                       decimals := item.decimals }
              else none)
        | .msg _ => []
      else []

/-- The response environment of one `EVMChainProvider` instance: the
decoded outcome of each endpoint the provider may query. -/
structure EvmEnv where
  txlist : Except PyExc (EsResp RawEvmTx)
  tokentx : Except PyExc (EsResp RawTokenTx)
  balance : Except PyExc (EsResp ℤ)
  tokenbalance : String → Except PyExc (EsResp ℤ)
  addrtokenbalance : Except PyExc (EsResp RawAddrTokenBal)

/-- The body of the per-contract loop of `_get_token_holdings`
(lines 264-289): one `tokenbalance` query; every failure is caught
(`continue`), a non-positive balance constructs nothing. -/
def evmQueryTokenBalance (chain : String) (env : EvmEnv) (price_usd : ℚ)
    (info : ContractInfo) : Option TokenBalance :=
  match api_call (env.tokenbalance info.contract) with
  | .error _ => none
  | .ok d =>
      if d.status == "1" && d.result.truthy then
        match d.result with
        | .records (raw :: _) =>
            let balance : ℚ := (raw : ℚ) / (10 : ℚ) ^ info.decimals
            if 0 < balance then
              some { chain := chain
                     symbol := info.symbol
                     name := some info.name
                     balance := pyRound 6 balance
                     balance_usd := pyRound 2
                       (_estimate_token_usd info.symbol balance price_usd)
                     contract_address := some info.contract
                     decimals := info.decimals }
            else none
        | _ => none
      else none

/-- `EVMChainProvider._get_token_holdings` (lines 241-299). -/
def evmGetTokenHoldings (chain : String) (env : EvmEnv)
    (tokenRaw : List RawTokenTx) (price_usd : ℚ) : List TokenBalance :=
  let token_map := buildTokenMap tokenRaw
  if token_map.isEmpty then
    _try_address_token_balance chain env.addrtokenbalance price_usd
  else
    let holdings := (token_map.take 10).filterMap
      (evmQueryTokenBalance chain env price_usd)
    let extra := _try_address_token_balance chain env.addrtokenbalance price_usd
    let seen := holdings.filterMap (fun h =>
      match h.contract_address with
      | some s => if s != "" then some (pyLower s) else none
      | none => none)
    let merged := holdings ++ extra.filter (fun t =>
      match t.contract_address with
      | some s => s != "" && !(seen.contains (pyLower s))
      | none => false)
    sortDescBy (fun t => t.balance_usd) merged

/-- Static configuration of one EVM chain (`EVM_CHAINS`, lines 17-66;
the numeric chain id only parameterizes the HTTP request). -/
structure EvmCfg where
  id : String
  name : String
  symbol : String
  deriving DecidableEq, Repr

/-- `EVMChainProvider.get_chain_summary` (lines 347-399).  The blanket
`except Exception: return None` at line 358 catches every exception of the
four fetches — including the `PermissionError` raised by `_api_call` —
so the function is total into `Option`. -/
def evmGetChainSummary (cfg : EvmCfg) (env : EvmEnv) (address : String)
    (price_usd : ℚ) : Option ChainSummary :=
  match evmGetTransactions cfg.id address env.txlist with
  | .error _ => none
  | .ok normal_txs =>
    match evmGetTokenTransfersRaw env.tokentx with
    | .error _ => none
    | .ok tokenRaw =>
        let token_txs := tokenRaw.map (evmMkTokenTransaction cfg.id address)
        let native_balance := evmGetNativeBalance env.balance
        let token_holdings := evmGetTokenHoldings cfg.id env tokenRaw price_usd
        if normal_txs.isEmpty && token_txs.isEmpty then none
        else
          let all_txs := normal_txs ++ token_txs
          let incoming := normal_txs.filter (fun t => t.is_incoming)
          let outgoing := normal_txs.filter (fun t => !t.is_incoming)
          let total_received := (incoming.map (fun t => t.value)).sum
          let total_sent := (outgoing.map (fun t => t.value)).sum
          let total_gas := (normal_txs.map (fun t => t.gas_fee.getD 0)).sum
          let timestamps := all_txs.filterMap (fun t => t.timestamp)
          let uniqueContracts := (normal_txs.filterMap (fun t =>
            match t.to_address with
            | some s => if s != "" then some (pyLower s) else none
            | none => none)).dedup
          some { chain := cfg.id
                 chain_name := cfg.name
                 native_symbol := cfg.symbol
                 total_transactions := (normal_txs.length : ℤ)
                 incoming_transactions := (incoming.length : ℤ)
                 outgoing_transactions := (outgoing.length : ℤ)
                 total_received := pyRound 8 total_received
                 total_received_usd := pyRound 2 (total_received * price_usd)
                 total_sent := pyRound 8 total_sent
                 total_sent_usd := pyRound 2 (total_sent * price_usd)
                 total_gas_spent := pyRound 8 total_gas
                 total_gas_spent_usd := pyRound 2 (total_gas * price_usd)
                 native_balance := pyRound 8 native_balance
                 native_balance_usd := pyRound 2 (native_balance * price_usd)
                 token_holdings := token_holdings
                 first_transaction_date := listMin timestamps
                 last_transaction_date := listMax timestamps
                 unique_contracts_interacted := (uniqueContracts.length : ℤ)
                 token_transfers_count := (token_txs.length : ℤ) }

/- ── chain_providers.py: Solana provider ───────────────────────────────── -/

/-- One record of the `getSignaturesForAddress` RPC result. -/
structure RawSolSig where
  signature : String := ""
  slot : Option ℤ := none
  blockTime : Option ℤ := none
  deriving DecidableEq, Repr

/-- The response environment of the `SolanaProvider`. -/
structure SolEnv where
  sigs : Except PyExc (List RawSolSig)
  balanceValue : Except PyExc ℤ

/-- `SolanaProvider.get_transactions` (lines 423-448): signatures only, so
`value = 0` and `is_incoming = False` on every transaction.
A `blockTime` of `0` is falsy and yields no timestamp. -/
def solGetTransactions (address : String)
    (sigs : Except PyExc (List RawSolSig)) : Except PyExc (List Transaction) :=
  match sigs with
  | .error e => .error e
  | .ok l => .ok (l.map (fun sig =>
      { hash := sig.signature
        chain := "solana"
        block_number := sig.slot
        timestamp := sig.blockTime.bind (fun t =>
          if t ≠ 0 then some ((t : ℚ)) else none)
        from_address := address
        to_address := some ""
        value := 0
        is_incoming := false }))

/-- `SolanaProvider.get_chain_summary` (lines 450-489): blanket
`except Exception: return None` around both RPC calls; `total_received`
and `native_balance` are both the current balance. -/
def solGetChainSummary (env : SolEnv) (address : String) (price_usd : ℚ) :
    Option ChainSummary :=
  match solGetTransactions address env.sigs with
  | .error _ => none
  | .ok txs =>
    match env.balanceValue with
    | .error _ => none
    | .ok lamports =>
        let balance_sol := lamports_to_sol lamports
        if txs.isEmpty then none
        else
          let timestamps := txs.filterMap (fun t => t.timestamp)
          some { chain := "solana"
                 chain_name := "Solana"
                 native_symbol := "SOL"
                 total_transactions := (txs.length : ℤ)
                 incoming_transactions := 0
                 outgoing_transactions := 0
                 total_received := pyRound 6 balance_sol
                 total_received_usd := pyRound 2 (balance_sol * price_usd)
                 total_sent := 0
                 total_sent_usd := 0
                 total_gas_spent := 0
                 total_gas_spent_usd := 0
                 native_balance := pyRound 6 balance_sol
                 native_balance_usd := pyRound 2 (balance_sol * price_usd)
                 token_holdings := []
                 first_transaction_date := listMin timestamps
                 last_transaction_date := listMax timestamps
                 unique_contracts_interacted := 0
                 token_transfers_count := 0 }

/- ── chain_providers.py: Bitcoin provider ──────────────────────────────── -/

/-- One output of a raw Bitcoin transaction (`out` entries). -/
structure RawBtcOut where
  value : ℤ := 0
  addr : Option String := none
  deriving DecidableEq, Repr

/-- One input of a raw Bitcoin transaction (its `prev_out`). -/
structure RawBtcInp where
  prevValue : ℤ := 0
  prevAddr : Option String := none
  deriving DecidableEq, Repr

/-- One raw Bitcoin transaction of the `rawaddr` response. -/
structure RawBtcTx where
  hash : String := ""
  blockHeight : Option ℤ := none
  time : Option ℤ := none
  outs : List RawBtcOut := []
  inputs : List RawBtcInp := []
  deriving DecidableEq, Repr

/-- The decoded `rawaddr` response body. -/
structure BtcResp where
  nTx : ℤ := 0
  totalReceived : ℤ := 0
  totalSent : ℤ := 0
  finalBalance : ℤ := 0
  txs : List RawBtcTx := []
  deriving DecidableEq, Repr

/-- The response environment of the `BitcoinProvider`: `.ok none` models a
non-200 HTTP status (handled without raising), `.error` a raised
network/decode exception. -/
structure BtcEnv where
  rawaddr : Except PyExc (Option BtcResp)

/-- chain_providers.py lines 515-548: direction and value of one raw
Bitcoin transaction relative to `address`. -/
def btcMkTransaction (address : String) (tx : RawBtcTx) : Transaction :=
  let value_in := ((tx.outs.filter (fun o => o.addr == some address)).map
    (fun o => o.value)).sum
  let value_out := ((tx.inputs.filter (fun i => i.prevAddr == some address)).map
    (fun i => i.prevValue)).sum
  let is_incoming := value_out < value_in
  { hash := tx.hash
    chain := "bitcoin"
    block_number := tx.blockHeight
    timestamp := tx.time.bind (fun t => if t ≠ 0 then some ((t : ℚ)) else none)
    from_address := if is_incoming then "" else address
    to_address := some (if is_incoming then address else "")
    value := satoshi_to_btc (max value_in value_out)
    is_incoming := is_incoming }

/-- `BitcoinProvider.get_transactions` (lines 502-549). -/
def btcGetTransactions (address : String)
    (resp : Except PyExc (Option BtcResp)) : Except PyExc (List Transaction) :=
  match resp with
  | .error e => .error e
  | .ok none => .ok []
  | .ok (some d) => .ok (d.txs.map (btcMkTransaction address))

/-- `BitcoinProvider.get_chain_summary` (lines 551-602): the explorer's
running totals are used directly; a `time` of `0` is falsy. -/
def btcGetChainSummary (env : BtcEnv) (price_usd : ℚ) : Option ChainSummary :=
  match env.rawaddr with
  | .error _ => none
  | .ok none => none
  | .ok (some d) =>
      if d.nTx == 0 then none
      else
        let total_received := satoshi_to_btc d.totalReceived
        let total_sent := satoshi_to_btc d.totalSent
        let final_balance := satoshi_to_btc d.finalBalance
        let timestamps := d.txs.filterMap (fun tx =>
          tx.time.bind (fun t => if t ≠ 0 then some ((t : ℚ)) else none))
        some { chain := "bitcoin"
               chain_name := "Bitcoin"
               native_symbol := "BTC"
               total_transactions := d.nTx
               incoming_transactions := 0
               outgoing_transactions := 0
               total_received := pyRound 8 total_received
               total_received_usd := pyRound 2 (total_received * price_usd)
               total_sent := pyRound 8 total_sent
               total_sent_usd := pyRound 2 (total_sent * price_usd)
               total_gas_spent := 0
               total_gas_spent_usd := 0
               native_balance := pyRound 8 final_balance
               native_balance_usd := pyRound 2 (final_balance * price_usd)
               token_holdings := []
               first_transaction_date := listMin timestamps
               last_transaction_date := listMax timestamps
               unique_contracts_interacted := 0
               token_transfers_count := 0 }

/- ── chain_providers.py: Tron provider ─────────────────────────────────── -/

/-- The `parameter.value` of one contract entry of a raw Tron transaction
(an absent `amount` key is `0`, matching `param.get("amount", 0)`). -/
structure RawTronContract where
  amount : ℤ := 0
  toAddress : String := ""
  ownerAddress : String := ""
  deriving DecidableEq, Repr

/-- One raw Tron transaction. -/
structure RawTronTx where
  txID : String := ""
  blockNumber : Option ℤ := none
  blockTimestamp : Option ℤ := none
  contracts : List RawTronContract := []
  deriving DecidableEq, Repr

/-- The response environment of the `TronProvider`: `.ok none` models a
non-200 HTTP status. -/
structure TronEnv where
  txResp : Except PyExc (Option (List RawTronTx))

/-- chain_providers.py lines 633-664: one raw Tron transaction; the amount
comes from the first contract entry (zero contracts yield value `0`), a
`block_timestamp` of `0` is falsy, and the millisecond timestamp is
divided by 1000 (true division). -/
def tronMkTransaction (address : String) (tx : RawTronTx) : Transaction :=
  let value : ℚ := match tx.contracts with
    | [] => 0
    | c :: _ => sun_to_trx c.amount
  let to_addr : String := match tx.contracts with
    | [] => ""
    | c :: _ => c.toAddress
  let from_addr : String := match tx.contracts with
    | [] => ""
    | c :: _ => c.ownerAddress
  { hash := tx.txID
    chain := "tron"
    block_number := tx.blockNumber
    timestamp := tx.blockTimestamp.bind (fun t =>
      if t ≠ 0 then some ((t : ℚ) / 1000) else none)
    from_address := from_addr
    to_address := some to_addr
    value := value
    is_incoming := pyLower to_addr == pyLower address }

/-- `TronProvider.get_transactions` (lines 616-665). -/
def tronGetTransactions (address : String)
    (resp : Except PyExc (Option (List RawTronTx))) :
    Except PyExc (List Transaction) :=
  match resp with
  | .error e => .error e
  | .ok none => .ok []
  | .ok (some l) => .ok (l.map (tronMkTransaction address))

/-- `TronProvider.get_chain_summary` (lines 667-702). -/
def tronGetChainSummary (env : TronEnv) (address : String) (price_usd : ℚ) :
    Option ChainSummary :=
  match tronGetTransactions address env.txResp with
  | .error _ => none
  | .ok txs =>
      if txs.isEmpty then none
      else
        let incoming := txs.filter (fun t => t.is_incoming)
        let outgoing := txs.filter (fun t => !t.is_incoming)
        let total_received := (incoming.map (fun t => t.value)).sum
        let total_sent := (outgoing.map (fun t => t.value)).sum
        let timestamps := txs.filterMap (fun t => t.timestamp)
        some { chain := "tron"
               chain_name := "Tron"
               native_symbol := "TRX"
               total_transactions := (txs.length : ℤ)
               incoming_transactions := (incoming.length : ℤ)
               outgoing_transactions := (outgoing.length : ℤ)
               total_received := pyRound 6 total_received
               total_received_usd := pyRound 2 (total_received * price_usd)
               total_sent := pyRound 6 total_sent
               total_sent_usd := pyRound 2 (total_sent * price_usd)
               total_gas_spent := 0
               total_gas_spent_usd := 0
               native_balance := 0
               native_balance_usd := 0
               token_holdings := []
               first_transaction_date := listMin timestamps
               last_transaction_date := listMax timestamps
               unique_contracts_interacted := 0
               token_transfers_count := 0 }

/- ── chain_providers.py: price oracle ──────────────────────────────────── -/

/-- chain_providers.py lines 708-717. -/
def _FALLBACK_PRICES : List (String × ℚ) :=
  [("ethereum", 2500), ("polygon-ecosystem-token", 35/100),
   ("binancecoin", 650), ("avalanche-2", 25), ("fantom", 1/2),
   ("solana", 170), ("bitcoin", 95000), ("tron", 13/100)]

/-- `_FALLBACK_PRICES.get(cid, 0)` (line 750). -/
def fallbackPrice (cid : String) : ℚ := dictGet _FALLBACK_PRICES cid 0

/-- Outcome of one CoinGecko HTTP attempt: a decoded response with its
status code and the per-id `usd` values (missing `usd` keys already
defaulted to `0`), or a raised exception. -/
inductive PriceAttempt where
  | httpResp (status : ℤ) (prices : List (String × ℚ))
  | exc
  deriving DecidableEq, Repr

/-- What one iteration of the retry loop of `get_token_prices`
(lines 727-746) does with an attempt's outcome: return the prices
(200 with at least one positive price), `continue` after the backoff
sleep (429), or `break` (anything else, including a 200 response with no
usable price and a raised exception). -/
inductive PriceStep where
  | success (prices : List (String × ℚ))
  | rateLimited
  | stop
  deriving DecidableEq, Repr

/-- chain_providers.py lines 728-745, one loop iteration. -/
def priceStep (a : PriceAttempt) : PriceStep :=
  match a with
  | .exc => .stop
  | .httpResp status prices =>
      if status == 200 then
        if prices.any (fun kv => 0 < kv.2) then .success prices else .stop
      else if status == 429 then .rateLimited
      else .stop

/-- The environment of one `get_token_prices` call: the outcomes the two
possible HTTP attempts would observe. -/
structure PriceEnv where
  attempt0 : PriceAttempt
  attempt1 : PriceAttempt
  deriving DecidableEq, Repr

/-- `get_token_prices` (lines 720-750), returning the price map together
with the number of HTTP attempts actually made.  The second attempt is
only reached by the `continue` of the rate-limit branch, and it can only
return prices or fall through to the static fallback (its own rate-limit
branch requires `attempt == 0`). -/
def get_token_prices (env : PriceEnv) (coingecko_ids : List String) :
    List (String × ℚ) × ℕ :=
  if coingecko_ids.isEmpty then ([], 0)
  else
    match priceStep env.attempt0 with
    | .success p => (p, 1)
    | .stop => (coingecko_ids.map (fun cid => (cid, fallbackPrice cid)), 1)
    | .rateLimited =>
        match priceStep env.attempt1 with
        | .success p => (p, 2)
        | _ => (coingecko_ids.map (fun cid => (cid, fallbackPrice cid)), 2)

/- ── wallet_analyzer.py: the orchestrator ──────────────────────────────── -/

/-- chain_providers.py `EVM_CHAINS` (the display data actually used by the
summaries; the numeric chain id only parameterizes HTTP requests). -/
def EVM_CHAINS : List EvmCfg :=
  [⟨"ethereum", "Ethereum", "ETH"⟩, ⟨"polygon", "Polygon", "POL"⟩,
   ⟨"bsc", "BNB Chain", "BNB"⟩, ⟨"arbitrum", "Arbitrum", "ETH"⟩,
   ⟨"optimism", "Optimism", "ETH"⟩, ⟨"avalanche", "Avalanche", "AVAX"⟩,
   ⟨"base", "Base", "ETH"⟩, ⟨"fantom", "Fantom", "FTM"⟩]

def lookupEvmCfg (c : String) : Option EvmCfg :=
  EVM_CHAINS.find? (fun cfg => cfg.id == c)

/-- `chain_id in EVM_CHAINS` (wallet_analyzer.py line 81). -/
def isEvmChain (c : String) : Bool := (lookupEvmCfg c).isSome

/-- wallet_analyzer.py lines 12-24. -/
def CHAIN_TO_COINGECKO : List (String × String) :=
  [("ethereum", "ethereum"), ("polygon", "polygon-ecosystem-token"),
   ("bsc", "binancecoin"), ("arbitrum", "ethereum"),
   ("optimism", "ethereum"), ("avalanche", "avalanche-2"),
   ("base", "ethereum"), ("fantom", "fantom"), ("solana", "solana"),
   ("bitcoin", "bitcoin"), ("tron", "tron")]

/-- `get_provider(chain_id) is not None` (chain_providers.py lines 756-765). -/
def get_provider_exists (c : String) : Bool :=
  isEvmChain c || c == "solana" || c == "bitcoin" || c == "tron"

/-- The complete environment of one `analyze` call: for every provider the
decoded outcomes of the network calls it would make, the truthiness of
`os.getenv("ETHERSCAN_API_KEY")` (wallet_analyzer.py line 82) and the
current time (`datetime.now()`, as an epoch timestamp). -/
structure AnalyzeEnv where
  price : PriceEnv
  evm : String → EvmEnv
  sol : SolEnv
  btc : BtcEnv
  tron : TronEnv
  etherscanKeySet : Bool
  now : ℚ

/-- What `await provider.get_chain_summary(address, price)` yields for one
chain.  Every provider's `get_chain_summary` wraps all of its fetches in a
blanket `except Exception` (chain_providers.py lines 358, 462, 564,
670-673), so the coroutine itself cannot raise and the outcome is always
`.ok`; the `Except` layer records what `asyncio.gather(...,
return_exceptions=True)` would have collected had it raised. -/
def providerRun (env : AnalyzeEnv) (address : String) (price : ℚ)
    (c : String) : Except PyExc (Option ChainSummary) :=
  match lookupEvmCfg c with
  | some cfg => .ok (evmGetChainSummary cfg (env.evm c) address price)
  | none =>
      if c == "solana" then .ok (solGetChainSummary env.sol address price)
      else if c == "bitcoin" then .ok (btcGetChainSummary env.btc price)
      else if c == "tron" then .ok (tronGetChainSummary env.tron address price)
      else .ok none

/-- `WalletAnalyzer._analyze_chain` (wallet_analyzer.py lines 159-166):
any exception of the provider call is caught and becomes `None`. -/
def _analyze_chain (r : Except PyExc (Option ChainSummary)) :
    Except PyExc (Option ChainSummary) :=
  match r with
  | .ok s => .ok s
  | .error _ => .ok none

/-- One iteration of the collection loop of `analyze`
(wallet_analyzer.py lines 67-71): keep a summary, skip a `None`, record a
gathered `PermissionError`. -/
def collectStep (acc : List ChainSummary × Bool)
    (r : Except PyExc (Option ChainSummary)) : List ChainSummary × Bool :=
  match r with
  | .ok (some s) => (acc.1 ++ [s], acc.2)
  | .ok none => acc
  | .error e => (acc.1, acc.2 || e.isPermissionError)

/-- The collection loop of `analyze` (wallet_analyzer.py lines 63-71). -/
def collectResults (results : List (Except PyExc (Option ChainSummary))) :
    List ChainSummary × Bool :=
  results.foldl collectStep ([], false)

/-- wallet_analyzer.py lines 74-78: the aggregate auth warning naming the
affected EVM chains. -/
def apiKeyWarning : String :=
  "ETHERSCAN_API_KEY is missing or invalid. EVM chain data (Ethereum, Polygon, BSC, Arbitrum, Optimism, Avalanche, Base, Fantom) could not be fetched. Get a free key at https://etherscan.io/apis"

/-- wallet_analyzer.py lines 83-87. -/
def noEvmDataWarning : String :=
  "No data returned for any EVM chain. This is almost certainly because ETHERSCAN_API_KEY is not set. Set it in your .env file or Render environment variables."

/-- wallet_analyzer.py line 39: `chains if chains else
get_chains_for_address(address)` (an explicit empty list is falsy). -/
def resolveTargets (address : List Char) (chains : Option (List String)) :
    List String :=
  match chains with
  | some (c :: cs) => c :: cs
  | _ => get_chains_for_address address

/-- wallet_analyzer.py lines 89-157: sorting, aggregation and report
construction from the collected summaries. -/
def buildReport (address : List Char) (addr_type : AddressType)
    (target_chains : List String) (now : ℚ) (collected : List ChainSummary)
    (warnings : List String) : WalletReport :=
  let chain_summaries := sortDescBy (fun s => s.total_transactions) collected
  let total_txs := (chain_summaries.map (fun s => s.total_transactions)).sum
  let total_received_usd :=
    (chain_summaries.map (fun s => s.total_received_usd)).sum
  let total_sent_usd := (chain_summaries.map (fun s => s.total_sent_usd)).sum
  let total_gas_usd :=
    (chain_summaries.map (fun s => s.total_gas_spent_usd)).sum
  let total_native_usd :=
    (chain_summaries.map (fun s => s.native_balance_usd)).sum
  let total_tokens_usd := (chain_summaries.map (fun s =>
    ((s.token_holdings.map (fun t => t.balance_usd)).sum))).sum
  let all_token_holdings := sortDescBy (fun t => t.balance_usd)
    ((chain_summaries.map (fun s => s.token_holdings)).flatten)
  let all_first := chain_summaries.filterMap (fun s => s.first_transaction_date)
  let all_last := chain_summaries.filterMap (fun s => s.last_transaction_date)
  let first_activity := listMin all_first
  let last_activity := listMax all_last
  { address := address
    address_type := addr_type.value
    chains_analyzed := target_chains
    chains_with_activity := chain_summaries.map (fun s => s.chain)
    total_transactions := total_txs
    total_received_usd := pyRound 2 total_received_usd
    total_sent_usd := pyRound 2 total_sent_usd
    total_gas_spent_usd := pyRound 2 total_gas_usd
    net_flow_usd := pyRound 2 (total_received_usd - total_sent_usd)
    total_current_balance_usd := pyRound 2 (total_native_usd + total_tokens_usd)
    chain_summaries := chain_summaries
    all_token_holdings := all_token_holdings
    top_chains_by_transactions := chain_summaries.map (fun s =>
      { chain := s.chain_name
        transactions := s.total_transactions
        volume_usd := pyRound 2 (s.total_received_usd + s.total_sent_usd)
        current_balance_usd := pyRound 2 (s.native_balance_usd +
          (s.token_holdings.map (fun t => t.balance_usd)).sum) })
    first_activity := first_activity
    last_activity := last_activity
    wallet_age_days := first_activity.map (fun f => ⌊(now - f) / 86400⌋)
    ai_insights := none
    warnings := warnings }

/-- One network interaction issued by `analyze`. -/
inductive NetCall where
  | priceFetch
  | chainQuery (chain : String)
  deriving DecidableEq, Repr

/-- wallet_analyzer.py lines 46-48: the distinct CoinGecko ids of the
target chains.  The `list(set(...))` iterates in an unspecified order; the
model dedups deterministically — only the membership of the id set is ever
observable (the price map is keyed). -/
def analyzeCgIds (target_chains : List String) : List String :=
  (target_chains.filterMap (fun c =>
    (CHAIN_TO_COINGECKO.find? (fun kv => kv.1 == c)).map
      (fun kv => kv.2))).dedup

/-- wallet_analyzer.py lines 53-55: the chains for which `get_provider`
returns a provider, in order — one `_analyze_chain` task each. -/
def analyzeTasks (target_chains : List String) : List String :=
  target_chains.filter get_provider_exists

/-- wallet_analyzer.py lines 56-57: `prices.get(CHAIN_TO_COINGECKO.get(c,
""), 0)` with the prices of this call. -/
def chainPrice (env : AnalyzeEnv) (target_chains : List String)
    (c : String) : ℚ :=
  dictGet (get_token_prices env.price (analyzeCgIds target_chains)).1
    (dictGet CHAIN_TO_COINGECKO c "") 0

/-- wallet_analyzer.py line 60: the gathered per-task results. -/
def analyzeResults (env : AnalyzeEnv) (address : List Char)
    (target_chains : List String) :
    List (Except PyExc (Option ChainSummary)) :=
  (analyzeTasks target_chains).map (fun c =>
    _analyze_chain (providerRun env ⟨address⟩
      (chainPrice env target_chains c) c))

/-- wallet_analyzer.py lines 73-87: the report-level warning list. -/
def analyzeWarnings (env : AnalyzeEnv) (target_chains : List String)
    (results : List (Except PyExc (Option ChainSummary))) : List String :=
  (if (collectResults results).2 then [apiKeyWarning] else []) ++
  (if !(target_chains.filter isEvmChain).isEmpty &&
      (collectResults results).1.isEmpty &&
      !env.etherscanKeySet then [noEvmDataWarning] else [])

/-- The report `analyze` assembles once validation has passed. -/
def analyzeReport (env : AnalyzeEnv) (address : List Char)
    (addr_type : AddressType) (target_chains : List String) : WalletReport :=
  buildReport address addr_type target_chains env.now
    (collectResults (analyzeResults env address target_chains)).1
    (analyzeWarnings env target_chains
      (analyzeResults env address target_chains))

/-- `WalletAnalyzer.analyze` (wallet_analyzer.py lines 30-157), together
with the trace of network interactions it issues, in order
(`get_token_prices` contacts nothing when the id list is empty,
chain_providers.py lines 722-723). -/
def analyzeT (env : AnalyzeEnv) (addressRaw : List Char)
    (chains : Option (List String)) :
    Except PyExc WalletReport × List NetCall :=
  let address := trimChars addressRaw
  let addr_type := detect_address_type address
  if addr_type = .unknown then
    (.error (.valueError ("Unrecognized address format: " ++ (⟨address⟩ : String))), [])
  else
    let target_chains := resolveTargets address chains
    if target_chains.isEmpty then
      (.error (.valueError ("No supported chains for address type: " ++
        addr_type.value)), [])
    else
      (.ok (analyzeReport env address addr_type target_chains),
       (if (analyzeCgIds target_chains).isEmpty then []
        else [NetCall.priceFetch]) ++
         (analyzeTasks target_chains).map NetCall.chainQuery)

/-- The result of `WalletAnalyzer.analyze` alone. -/
def analyze (env : AnalyzeEnv) (addressRaw : List Char)
    (chains : Option (List String)) : Except PyExc WalletReport :=
  (analyzeT env addressRaw chains).1

/- ── Helper lemmas on the embedding ────────────────────────────────────── -/

/-- The summary a gathered result contributes (`None` for skipped / failed
chains). -/
def resultSummary (r : Except PyExc (Option ChainSummary)) :
    Option ChainSummary :=
  match r with
  | .ok o => o
  | .error _ => none

theorem foldl_collectStep_fst :
    ∀ (results : List (Except PyExc (Option ChainSummary)))
      (acc : List ChainSummary × Bool),
      (results.foldl collectStep acc).1 =
        acc.1 ++ results.filterMap resultSummary
  | [], acc => by simp
  | r :: rs, acc => by
      rw [List.foldl_cons, foldl_collectStep_fst rs]
      cases r with
      | error e => simp [collectStep, resultSummary]
      | ok o => cases o <;> simp [collectStep, resultSummary]

theorem collectResults_fst
    (results : List (Except PyExc (Option ChainSummary))) :
    (collectResults results).1 = results.filterMap resultSummary := by
  rw [collectResults, foldl_collectStep_fst]
  rfl

theorem analyze_ok_of_valid (env : AnalyzeEnv) (addr : List Char)
    (chains : Option (List String))
    (h1 : detect_address_type (trimChars addr) ≠ .unknown)
    (h2 : resolveTargets (trimChars addr) chains ≠ []) :
    analyze env addr chains = .ok (analyzeReport env (trimChars addr)
      (detect_address_type (trimChars addr))
      (resolveTargets (trimChars addr) chains)) := by
  have h2' : (resolveTargets (trimChars addr) chains).isEmpty = false := by
    cases hl : resolveTargets (trimChars addr) chains with
    | nil => exact absurd hl h2
    | cons a l => rfl
  unfold analyze analyzeT
  simp only [h1, if_false, h2', Bool.false_eq_true]

theorem analyze_ok_inv (env : AnalyzeEnv) (addr : List Char)
    (chains : Option (List String)) (r : WalletReport)
    (h : analyze env addr chains = .ok r) :
    detect_address_type (trimChars addr) ≠ .unknown ∧
    resolveTargets (trimChars addr) chains ≠ [] ∧
    r = analyzeReport env (trimChars addr)
      (detect_address_type (trimChars addr))
      (resolveTargets (trimChars addr) chains) := by
  by_cases h1 : detect_address_type (trimChars addr) = .unknown
  · rw [show analyze env addr chains =
        .error (.valueError ("Unrecognized address format: " ++
          (⟨trimChars addr⟩ : String))) by
      unfold analyze analyzeT
      simp only [h1, if_true]] at h
    exact absurd h (by simp)
  · by_cases h2 : resolveTargets (trimChars addr) chains = []
    · rw [show analyze env addr chains =
          .error (.valueError ("No supported chains for address type: " ++
            (detect_address_type (trimChars addr)).value)) by
        unfold analyze analyzeT
        simp only [h1, if_false, h2, List.isEmpty_nil, if_true]] at h
      exact absurd h (by simp)
    · have := analyze_ok_of_valid env addr chains h1 h2
      rw [this] at h
      exact ⟨h1, h2, (Except.ok.injEq _ _).mp h.symm⟩

theorem analyze_error_of_unknown (env : AnalyzeEnv) (addr : List Char)
    (chains : Option (List String))
    (h1 : detect_address_type (trimChars addr) = .unknown) :
    analyzeT env addr chains =
      (.error (.valueError ("Unrecognized address format: " ++
        (⟨trimChars addr⟩ : String))), []) := by
  unfold analyzeT
  simp only [h1, if_true]

theorem analyze_error_of_no_chains (env : AnalyzeEnv) (addr : List Char)
    (chains : Option (List String))
    (h1 : detect_address_type (trimChars addr) ≠ .unknown)
    (h2 : resolveTargets (trimChars addr) chains = []) :
    analyzeT env addr chains =
      (.error (.valueError ("No supported chains for address type: " ++
        (detect_address_type (trimChars addr)).value)), []) := by
  unfold analyzeT
  simp only [h1, if_false, h2, List.isEmpty_nil, if_true]

/-- `|round2 (a-b) - (round2 a - round2 b)| ≤ 0.015`: the three fields are
independently rounded from the same unrounded sums. -/
theorem pyRound2_sub_bound (a b : ℚ) :
    |pyRound 2 (a - b) - (pyRound 2 a - pyRound 2 b)| ≤ 3/200 := by
  have h1 := abs_pyRound_sub_le 2 (a - b)
  have h2 := abs_pyRound_sub_le 2 a
  have h3 := abs_pyRound_sub_le 2 b
  have hc : (1 : ℚ) / (2 * 10 ^ 2) = 1/200 := by norm_num
  rw [hc] at h1 h2 h3
  rw [abs_le] at h1 h2 h3 ⊢
  constructor <;> linarith [h1.1, h1.2, h2.1, h2.2, h3.1, h3.2]

theorem mem_of_getLast?_eq {α : Type} {l : List α} {a : α}
    (h : l.getLast? = some a) : a ∈ l := by
  obtain ⟨hne, heq⟩ := List.mem_getLast?_eq_getLast
    (show a ∈ l.getLast? by rw [Option.mem_def, h])
  subst heq
  exact List.getLast_mem hne

/-- A list whose first and last characters are not whitespace is its own
`strip()`. -/
theorem trimChars_eq_self (cs : List Char)
    (hhead : ∀ c, cs.head? = some c → pyIsSpace c = false)
    (hlast : ∀ c, cs.getLast? = some c → pyIsSpace c = false) :
    trimChars cs = cs := by
  cases cs with
  | nil => rfl
  | cons a t =>
    have ha : pyIsSpace a = false := hhead a rfl
    have hdrop : (a :: t).dropWhile pyIsSpace = a :: t := by
      rw [List.dropWhile_cons, ha]
      simp
    unfold trimChars
    rw [hdrop]
    cases hr : (a :: t).reverse with
    | nil => exact absurd hr (by simp)
    | cons b u =>
      have hb : (a :: t).getLast? = some b := by
        rw [← List.head?_reverse, hr]
        rfl
      have hbs : pyIsSpace b = false := hlast b hb
      rw [List.dropWhile_cons, hbs]
      simp [← hr]

theorem pyIsSpace_false_of_isHexChar (c : Char) (h : isHexChar c = true) :
    pyIsSpace c = false := by
  by_contra hc
  have hc' : pyIsSpace c = true := by
    cases hpc : pyIsSpace c with
    | false => exact absurd hpc hc
    | true => rfl
  simp only [pyIsSpace, Bool.or_eq_true, decide_eq_true_eq] at hc'
  rcases hc' with ((((h1 | h1) | h1) | h1) | h1) | h1 <;>
    subst h1 <;> exact absurd h (by decide)

theorem pyIsSpace_false_of_isAlnumChar (c : Char) (h : isAlnumChar c = true) :
    pyIsSpace c = false := by
  by_contra hc
  have hc' : pyIsSpace c = true := by
    cases hpc : pyIsSpace c with
    | false => exact absurd hpc hc
    | true => rfl
  simp only [pyIsSpace, Bool.or_eq_true, decide_eq_true_eq] at hc'
  rcases hc' with ((((h1 | h1) | h1) | h1) | h1) | h1 <;>
    subst h1 <;> exact absurd h (by decide)

/- ── Concrete test environments ────────────────────────────────────────── -/

/-- An environment in which every network interaction raises. -/
def failEvmEnv : EvmEnv :=
  { txlist := .error .httpError, tokentx := .error .httpError,
    balance := .error .httpError, tokenbalance := fun _ => .error .httpError,
    addrtokenbalance := .error .httpError }

/-- An `analyze` environment in which every network interaction raises. -/
def failEnv : AnalyzeEnv :=
  { price := ⟨.exc, .exc⟩, evm := fun _ => failEvmEnv,
    sol := ⟨.error .httpError, .error .httpError⟩,
    btc := ⟨.error .httpError⟩, tron := ⟨.error .httpError⟩,
    etherscanKeySet := false, now := 0 }

/-- A valid EVM test address: `0x` followed by forty `a`s. -/
def evmTestAddr : List Char := '0' :: 'x' :: List.replicate 40 'a'

/- ── The claims ────────────────────────────────────────────────────────── -/

/-- Claim C9: converting `1_000_000_000_000_000_000` smallest EVM units
yields exactly `1.0` native unit, `100_000_000` Bitcoin smallest units
yields exactly `1.0` BTC, and `1_000_000` Tron smallest units yields
exactly `1.0` TRX. -/
theorem c9_unit_conversion_round_trip :
    wei_to_ether 1000000000000000000 = 1 ∧
    satoshi_to_btc 100000000 = 1 ∧
    sun_to_trx 1000000 = 1 := by
  refine ⟨?_, ?_, ?_⟩ <;> norm_num [wei_to_ether, satoshi_to_btc, sun_to_trx]

/-- Claim C7: for every non-empty id list, `get_token_prices` makes a
second attempt exactly when the first one is rate-limited (and never a
third); whenever the loop ends without a usable (positive-price) success
it returns the static fallback table entry for every requested id; ids
absent from the fallback table are priced `0`. -/
theorem c7_price_oracle_retry_and_fallback (env : PriceEnv)
    (ids : List String) (h : ids ≠ []) :
    ((get_token_prices env ids).2 = 2 ↔
      priceStep env.attempt0 = .rateLimited) ∧
    (get_token_prices env ids).2 ≤ 2 ∧
    ((priceStep env.attempt0 = .stop ∨
        (priceStep env.attempt0 = .rateLimited ∧
          ∀ p, priceStep env.attempt1 ≠ .success p)) →
      (get_token_prices env ids).1 =
        ids.map (fun cid => (cid, fallbackPrice cid))) ∧
    (∀ cid, (∀ q ∈ _FALLBACK_PRICES, q.1 ≠ cid) → fallbackPrice cid = 0) := by
  have hne : ids.isEmpty = false := by
    cases ids with
    | nil => exact absurd rfl h
    | cons a l => rfl
  have hfb : ∀ cid, (∀ q ∈ _FALLBACK_PRICES, q.1 ≠ cid) →
      fallbackPrice cid = 0 := by
    intro cid hcid
    unfold fallbackPrice dictGet
    cases hfind : _FALLBACK_PRICES.find? (fun kv => kv.1 = cid) with
    | none => rfl
    | some kv =>
        have hmem := List.mem_of_find?_eq_some hfind
        have hp := List.find?_some hfind
        have : kv.1 = cid := by
          simpa using hp
        exact absurd this (hcid kv hmem)
  unfold get_token_prices
  rw [hne]
  simp only [Bool.false_eq_true, if_false]
  cases hstep : priceStep env.attempt0 with
  | success p =>
      refine ⟨by simp, by norm_num, ?_, hfb⟩
      rintro (hc | ⟨hc, _⟩) <;> exact absurd hc (by simp)
  | stop =>
      refine ⟨by simp, by norm_num, fun _ => rfl, hfb⟩
  | rateLimited =>
      cases hstep2 : priceStep env.attempt1 with
      | success p =>
          refine ⟨by simp, by norm_num, ?_, hfb⟩
          rintro (hc | ⟨_, hall⟩)
          · exact absurd hc (by simp)
          · exact absurd rfl (hall p)
      | stop => refine ⟨by simp, by norm_num, fun _ => rfl, hfb⟩
      | rateLimited => refine ⟨by simp, by norm_num, fun _ => rfl, hfb⟩

/-- Witness for C7 at a concrete failing environment and id list. -/
theorem c7_witness :
    ((get_token_prices ⟨.exc, .exc⟩ ["ethereum"]).2 = 2 ↔
      priceStep .exc = .rateLimited) ∧
    (get_token_prices ⟨.exc, .exc⟩ ["ethereum"]).2 ≤ 2 ∧
    ((priceStep .exc = .stop ∨
        (priceStep .exc = .rateLimited ∧
          ∀ p, priceStep .exc ≠ .success p)) →
      (get_token_prices ⟨.exc, .exc⟩ ["ethereum"]).1 =
        ["ethereum"].map (fun cid => (cid, fallbackPrice cid))) ∧
    (∀ cid, (∀ q ∈ _FALLBACK_PRICES, q.1 ≠ cid) → fallbackPrice cid = 0) :=
  c7_price_oracle_retry_and_fallback ⟨.exc, .exc⟩ ["ethereum"] (by decide)

/-- Claim C10: a successful Solana summary reports the current native
balance as `total_received` (and its USD value as `total_received_usd`),
with `total_sent`, `incoming_transactions` and `outgoing_transactions`
all zero. -/
theorem c10_solana_received_is_balance (env : SolEnv) (address : String)
    (price : ℚ) (s : ChainSummary)
    (h : solGetChainSummary env address price = some s) :
    s.total_received = s.native_balance ∧
    s.total_received_usd = s.native_balance_usd ∧
    s.total_sent = 0 ∧ s.total_sent_usd = 0 ∧
    s.incoming_transactions = 0 ∧ s.outgoing_transactions = 0 := by
  unfold solGetChainSummary at h
  split at h
  · exact absurd h (by simp)
  · split at h
    · exact absurd h (by simp)
    · split at h
      · exact absurd h (by simp)
      · obtain rfl := (Option.some.injEq _ _).mp h
        exact ⟨rfl, rfl, rfl, rfl, rfl, rfl⟩

/-- A concrete Solana environment: one signature, five lamports. -/
def solTestEnv : SolEnv :=
  { sigs := .ok [{ signature := "sig", slot := some 1, blockTime := some 100 }],
    balanceValue := .ok 5 }

/-- The summary the Solana provider produces on `solTestEnv`. -/
def solTestSummary : ChainSummary :=
  match solGetChainSummary solTestEnv "addr" 170 with
  | some s => s
  | none => {}

/-- Witness for C10 at `solTestEnv`. -/
theorem c10_witness :
    solTestSummary.total_received = solTestSummary.native_balance ∧
    solTestSummary.total_received_usd = solTestSummary.native_balance_usd ∧
    solTestSummary.total_sent = 0 ∧ solTestSummary.total_sent_usd = 0 ∧
    solTestSummary.incoming_transactions = 0 ∧
    solTestSummary.outgoing_transactions = 0 :=
  c10_solana_received_is_balance solTestEnv "addr" 170 solTestSummary rfl

/-- An Etherscan response rejecting the request for a missing/invalid
API key (`status == "0"`, result string containing `"API Key"`). -/
def authRejectResp {α : Type} : Except PyExc (EsResp α) :=
  .ok { status := "0", result := .msg "NOTOK: Missing/Invalid API Key" }

/-- An EVM environment in which every endpoint rejects for auth. -/
def authRejectEvmEnv : EvmEnv :=
  { txlist := authRejectResp, tokentx := authRejectResp,
    balance := authRejectResp, tokenbalance := fun _ => authRejectResp,
    addrtokenbalance := authRejectResp }

/-- An `analyze` environment in which every EVM chain rejects for auth,
with `ETHERSCAN_API_KEY` set (to an invalid value) in the process
environment. -/
def authRejectEnv : AnalyzeEnv :=
  { price := ⟨.exc, .exc⟩, evm := fun _ => authRejectEvmEnv,
    sol := ⟨.error .httpError, .error .httpError⟩,
    btc := ⟨.error .httpError⟩, tron := ⟨.error .httpError⟩,
    etherscanKeySet := true, now := 0 }

/-- Claim C1 (code-bug evidence): `_api_call` does raise a distinct
`PermissionError` on an auth rejection, but `get_chain_summary`'s blanket
`except Exception` swallows it into an absent summary, so `analyze`'s
`PermissionError` branch never fires and the returned report's warnings
list is empty — the aggregate warning naming the affected EVM chains is
never attached. -/
theorem c1_auth_failure_swallowed :
    api_call (authRejectResp (α := RawEvmTx)) = .error (.permissionError
      "ETHERSCAN_API_KEY missing or invalid. Get a free key at https://etherscan.io/apis") ∧
    evmGetChainSummary ⟨"ethereum", "Ethereum", "ETH"⟩ authRejectEvmEnv
      ⟨evmTestAddr⟩ 2500 = none ∧
    (analyze authRejectEnv evmTestAddr none).map (fun r => r.warnings) =
      .ok [] := by
  refine ⟨rfl, rfl, rfl⟩

/-- A `status == "0"` response that is not an auth rejection. -/
def noDataResp {α : Type} : Except PyExc (EsResp α) :=
  .ok { status := "0", result := .msg "No transactions found" }

/-- A successful numeric-result response. -/
def okIntResp (n : ℤ) : Except PyExc (EsResp ℤ) :=
  .ok { status := "1", result := .records [n] }

/-- An EVM environment whose `tokenbalance` endpoint reports a raw balance
of `1` for every contract. -/
def dustEvmEnv : EvmEnv :=
  { txlist := noDataResp, tokentx := noDataResp, balance := noDataResp,
    tokenbalance := fun _ => okIntResp 1, addrtokenbalance := noDataResp }

/-- A raw token transfer of a 18-decimals token. -/
def dustTokenTx : RawTokenTx :=
  { tokenSymbol := "SHIB", tokenName := "Shiba", contractAddress := "0xdead",
    tokenDecimal := 18, value := 1 }

/-- The holding the provider constructs from `dustEvmEnv`: a raw balance
of `1` at 18 decimals passes the `balance > 0` filter but is stored as
`round(1e-18, 6) == 0.0`. -/
def dustHolding : TokenBalance :=
  { chain := "ethereum", symbol := "SHIB", name := some "Shiba",
    balance := 0, balance_usd := 0, contract_address := some "0xdead",
    decimals := 18 }

/-- The `token_map` entry built from `dustTokenTx`. -/
def dustInfo : ContractInfo :=
  { symbol := "SHIB", name := "Shiba", contract := "0xdead", decimals := 18 }

theorem pyRound_zero (n : ℕ) : pyRound n 0 = 0 := by
  unfold pyRound roundHalfEven
  norm_num

/-- Rounding sends any sufficiently small non-negative value to zero. -/
theorem pyRound_eq_zero_of_small (n : ℕ) (x : ℚ) (h0 : 0 ≤ x)
    (hs : x * 10 ^ n < 1/2) : pyRound n x = 0 := by
  have hfl : ⌊x * 10 ^ n⌋ = 0 := by
    rw [Int.floor_eq_zero_iff]
    exact ⟨by positivity, lt_trans hs (by norm_num)⟩
  have hc : x * 10 ^ n - ((0 : ℤ) : ℚ) < 1/2 := by push_cast; linarith
  unfold pyRound roundHalfEven
  simp only [hfl, hc, if_true]
  norm_num

theorem dust_balance_pos : (0 : ℚ) < ((1 : ℤ) : ℚ) / (10 : ℚ) ^ (18 : ℤ) := by
  apply div_pos (by norm_num) (zpow_pos (by norm_num) 18)

theorem zpow_eighteen : (10 : ℚ) ^ (18 : ℤ) = (10 : ℚ) ^ (18 : ℕ) := by
  rw [show (18 : ℤ) = ((18 : ℕ) : ℤ) from rfl, zpow_natCast]

theorem dust_balance_round : pyRound 6 (((1 : ℤ) : ℚ) / (10 : ℚ) ^ (18 : ℤ)) = 0 := by
  apply pyRound_eq_zero_of_small _ _ (le_of_lt dust_balance_pos)
  rw [zpow_eighteen, div_mul_eq_mul_div, div_lt_iff₀ (by positivity)]
  norm_num

theorem dust_usd_zero (b : ℚ) : _estimate_token_usd "SHIB" b 2500 = 0 := by
  have h1 : (_STABLECOIN_SYMBOLS.contains (pyReplaceDotE (pyUpper "SHIB")) ||
      _STABLECOIN_SYMBOLS.contains
        (pyReplaceDotE (pyReplaceDotE (pyUpper "SHIB")))) = false := rfl
  have h2 : _WRAPPED_NATIVE.contains (pyReplaceDotE (pyUpper "SHIB")) = false :=
    rfl
  simp only [_estimate_token_usd, h1, h2, Bool.false_eq_true, if_false]

theorem dust_query :
    evmQueryTokenBalance "ethereum" dustEvmEnv 2500 dustInfo =
      some dustHolding := by
  have hapi : api_call (dustEvmEnv.tokenbalance dustInfo.contract) =
      .ok { status := "1", result := .records [1] } := rfl
  have hcond : (("1" : String) == "1" &&
      (EsResult.records ([(1 : ℤ)])).truthy) = true := rfl
  unfold evmQueryTokenBalance
  rw [hapi]
  dsimp only
  rw [hcond, if_pos rfl]
  rw [show dustInfo.decimals = (18 : ℤ) from rfl,
    show dustInfo.symbol = "SHIB" from rfl,
    show dustInfo.name = "Shiba" from rfl,
    show dustInfo.contract = "0xdead" from rfl]
  rw [if_pos dust_balance_pos]
  rw [Option.some.injEq, TokenBalance.mk.injEq]
  refine ⟨rfl, rfl, rfl, dust_balance_round, ?_, rfl, rfl⟩
  rw [dust_usd_zero]
  exact pyRound_zero 2

theorem dust_holdings :
    evmGetTokenHoldings "ethereum" dustEvmEnv [dustTokenTx] 2500 =
      [dustHolding] := by
  unfold evmGetTokenHoldings
  simp only [show buildTokenMap [dustTokenTx] = [dustInfo] from rfl,
    show ([dustInfo] : List ContractInfo).isEmpty = false from rfl,
    Bool.false_eq_true, if_false,
    show List.take 10 [dustInfo] = [dustInfo] from rfl,
    List.filterMap_cons, List.filterMap_nil, dust_query,
    show _try_address_token_balance "ethereum" dustEvmEnv.addrtokenbalance
      2500 = ([] : List TokenBalance) from rfl]
  rfl

/-- Claim C8 counterexample: a constructed `TokenBalance` whose stored
`balance` is not `> 0` — a raw balance of `1` smallest unit of an
18-decimals token passes the positivity filter but rounds to `0.0`. -/
theorem c8_counterexample :
    evmGetTokenHoldings "ethereum" dustEvmEnv [dustTokenTx] 2500 =
      [dustHolding] ∧
    ¬(0 < dustHolding.balance) :=
  ⟨dust_holdings, by norm_num [dustHolding]⟩

/-- Claim C8 (amended): every Transaction any provider constructs from raw
records with non-negative raw amount fields has `value ≥ 0`; every
constructed `TokenBalance` has a strictly positive unrounded balance,
hence a stored (6-decimals-rounded) `balance ≥ 0` — but not necessarily
`> 0`. -/
theorem c8_nonnegativity :
    (∀ chain address tx, (0 : ℤ) ≤ tx.value →
      0 ≤ (evmMkTransaction chain address tx).value) ∧
    (∀ chain address tx, (0 : ℤ) ≤ tx.value →
      0 ≤ (evmMkTokenTransaction chain address tx).value) ∧
    (∀ address sigs txs, solGetTransactions address sigs = .ok txs →
      ∀ t ∈ txs, 0 ≤ t.value) ∧
    (∀ address tx, (∀ o ∈ tx.outs, (0 : ℤ) ≤ o.value) →
      (∀ i ∈ tx.inputs, (0 : ℤ) ≤ i.prevValue) →
      0 ≤ (btcMkTransaction address tx).value) ∧
    (∀ address tx, (∀ c ∈ tx.contracts, (0 : ℤ) ≤ c.amount) →
      0 ≤ (tronMkTransaction address tx).value) ∧
    (∀ chain env price info tb,
      evmQueryTokenBalance chain env price info = some tb →
      0 ≤ tb.balance) ∧
    (∀ chain resp price tb,
      tb ∈ _try_address_token_balance chain resp price → 0 ≤ tb.balance) := by
  refine ⟨?_, ?_, ?_, ?_, ?_, ?_, ?_⟩
  · intro chain address tx h
    exact div_nonneg (by exact_mod_cast h) (by positivity)
  · intro chain address tx h
    exact div_nonneg (by exact_mod_cast h)
      (le_of_lt (zpow_pos (by norm_num) tx.tokenDecimal))
  · intro address sigs txs h t ht
    cases hs : sigs with
    | error e => rw [hs] at h; exact absurd h (by simp [solGetTransactions])
    | ok l =>
        rw [hs] at h
        unfold solGetTransactions at h
        obtain rfl := (Except.ok.injEq _ _).mp h
        obtain ⟨sig, _, rfl⟩ := List.mem_map.mp ht
        exact le_refl 0
  · intro address tx hout hin
    have h1 : (0 : ℤ) ≤ ((tx.outs.filter (fun o => o.addr == some address)).map
        (fun o => o.value)).sum := by
      apply List.sum_nonneg
      intro x hx
      obtain ⟨o, ho, rfl⟩ := List.mem_map.mp hx
      exact hout o (List.mem_of_mem_filter ho)
    have h2 : (0 : ℤ) ≤ ((tx.inputs.filter
        (fun i => i.prevAddr == some address)).map
        (fun i => i.prevValue)).sum := by
      apply List.sum_nonneg
      intro x hx
      obtain ⟨i, hi, rfl⟩ := List.mem_map.mp hx
      exact hin i (List.mem_of_mem_filter hi)
    show 0 ≤ satoshi_to_btc _
    unfold satoshi_to_btc
    apply div_nonneg _ (by positivity)
    exact_mod_cast le_max_of_le_left h1
  · intro address tx h
    unfold tronMkTransaction
    cases hc : tx.contracts with
    | nil => simp
    | cons c cl =>
        simp only
        unfold sun_to_trx
        apply div_nonneg _ (by positivity)
        have : (0 : ℤ) ≤ c.amount := h c (by rw [hc]; exact List.mem_cons_self c cl)
        exact_mod_cast this
  · intro chain env price info tb h
    unfold evmQueryTokenBalance at h
    split at h
    · exact absurd h (by simp)
    · split at h
      · split at h
        · dsimp only at h
          split at h
          · rename_i hpos
            obtain rfl := (Option.some.injEq _ _).mp h
            exact pyRound_nonneg 6 _ (le_of_lt hpos)
          · exact absurd h (by simp)
        · exact absurd h (by simp)
      · exact absurd h (by simp)
  · intro chain resp price tb h
    unfold _try_address_token_balance at h
    split at h
    · exact absurd h (by simp)
    · split at h
      · split at h
        · obtain ⟨item, _, hitem⟩ := List.mem_filterMap.mp h
          dsimp only at hitem
          split at hitem
          all_goals
            split at hitem
            · rename_i hpos
              obtain rfl := (Option.some.injEq _ _).mp hitem
              exact pyRound_nonneg 6 _ (le_of_lt hpos)
            · exact absurd hitem (by simp)
        · exact absurd h (by simp)
      · exact absurd h (by simp)

/-- Witness for C8 at concrete raw records. -/
theorem c8_witness :
    0 ≤ (evmMkTransaction "ethereum" "0xa" { value := 5 }).value ∧
    0 ≤ (tronMkTransaction "Taddr" { contracts := [{ amount := 3 }] }).value ∧
    0 ≤ dustHolding.balance :=
  ⟨c8_nonnegativity.1 "ethereum" "0xa" { value := 5 } (by norm_num),
   c8_nonnegativity.2.2.2.2.1 "Taddr" { contracts := [{ amount := 3 }] }
     (by intro c hc; simp at hc; rw [hc]; norm_num),
   c8_nonnegativity.2.2.2.2.2.1 "ethereum" dustEvmEnv 2500 dustInfo
     dustHolding dust_query⟩

/-- `evmTestAddr` with a leading blank: matches none of the five anchored
regular expressions, yet classifies as EVM because `detect_address_type`
strips its argument first. -/
def paddedEvmAddr : List Char := ' ' :: evmTestAddr

/-- Claim C4 counterexample: a string matching none of the four family
patterns on which `classify` does not return Unrecognized — the
whitespace-padded EVM address is stripped before the patterns apply. -/
theorem c4_counterexample :
    matchesEVM paddedEvmAddr = false ∧
    matchesBtcLegacy paddedEvmAddr = false ∧
    matchesBech32 paddedEvmAddr = false ∧
    matchesTron paddedEvmAddr = false ∧
    matchesSolana paddedEvmAddr = false ∧
    detect_address_type paddedEvmAddr = .evm := by
  refine ⟨rfl, rfl, rfl, rfl, rfl, rfl⟩

theorem all_getLast? {p : Char → Bool} {l : List Char} {c : Char}
    (hall : l.all p = true) (hlast : l.getLast? = some c) : p c = true :=
  List.all_eq_true.mp hall c (mem_of_getLast?_eq hlast)

/-- Claim C4 (amended): the classifier applies the family patterns in
fixed precedence order; every string matching the EVM pattern classifies
as EVM; every string satisfying both the Tron pattern and the generic
base58 pattern classifies as Tron, not Solana; and every string whose
stripped form matches none of the four family patterns classifies as
Unrecognized. -/
theorem c4_classification (cs : List Char) :
    (matchesEVM cs = true → detect_address_type cs = .evm) ∧
    (matchesTron cs = true ∧ matchesSolana cs = true →
      detect_address_type cs = .tron) ∧
    (matchesEVM (trimChars cs) = false ∧
     matchesBtcLegacy (trimChars cs) = false ∧
     matchesBech32 (trimChars cs) = false ∧
     matchesTron (trimChars cs) = false ∧
     matchesSolana (trimChars cs) = false →
      detect_address_type cs = .unknown) := by
  refine ⟨?_, ?_, ?_⟩
  · intro h
    cases cs with
    | nil => exact absurd h (by decide)
    | cons c0 cs1 =>
      cases cs1 with
      | nil => exact absurd h (by simp [matchesEVM])
      | cons c1 rest =>
        simp only [matchesEVM, Bool.and_eq_true, decide_eq_true_eq] at h
        obtain ⟨⟨⟨h0, h1⟩, hlen⟩, hall⟩ := h
        subst h0
        subst h1
        have htrim : trimChars ('0' :: 'x' :: rest) = '0' :: 'x' :: rest := by
          apply trimChars_eq_self
          · intro c hc
            simp only [List.head?_cons, Option.some.injEq] at hc
            subst hc
            rfl
          · intro c hc
            rw [List.getLast?_cons_cons] at hc
            cases rest with
            | nil => exact absurd hlen (by decide)
            | cons r rs =>
              rw [List.getLast?_cons_cons] at hc
              exact pyIsSpace_false_of_isHexChar c (all_getLast? hall hc)
        have hm : matchesEVM ('0' :: 'x' :: rest) = true := by
          simp [matchesEVM, hlen, hall]
        unfold detect_address_type detectCore
        rw [htrim, hm]
        simp
  · rintro ⟨ht, _⟩
    cases cs with
    | nil => exact absurd ht (by decide)
    | cons c0 rest =>
      simp only [matchesTron, Bool.and_eq_true, decide_eq_true_eq] at ht
      obtain ⟨⟨h0, hlen⟩, hall⟩ := ht
      subst h0
      cases rest with
      | nil => exact absurd hlen (by decide)
      | cons r1 rs1 =>
        cases rs1 with
        | nil => exact absurd hlen (by simp)
        | cons r2 rs2 =>
          have htrim : trimChars ('T' :: r1 :: r2 :: rs2) =
              'T' :: r1 :: r2 :: rs2 := by
            apply trimChars_eq_self
            · intro c hc
              simp only [List.head?_cons, Option.some.injEq] at hc
              subst hc
              rfl
            · intro c hc
              rw [List.getLast?_cons_cons] at hc
              exact pyIsSpace_false_of_isAlnumChar c (all_getLast? hall hc)
          have hEVM : matchesEVM ('T' :: r1 :: r2 :: rs2) = false := by
            simp only [matchesEVM]
            rw [show decide ('T' = '0') = false from rfl]
            simp
          have hBtc : matchesBtcLegacy ('T' :: r1 :: r2 :: rs2) = false := by
            simp only [matchesBtcLegacy]
            rw [show decide ('T' = '1') = false from rfl,
              show decide ('T' = '3') = false from rfl]
            simp
          have hBech : matchesBech32 ('T' :: r1 :: r2 :: rs2) = false := by
            simp only [matchesBech32]
            rw [show decide ('T' = 'b') = false from rfl]
            simp
          have hm : matchesTron ('T' :: r1 :: r2 :: rs2) = true := by
            simp [matchesTron, hlen, hall]
          unfold detect_address_type detectCore
          rw [htrim, hEVM, hBtc, hBech, hm]
          simp
  · rintro ⟨h1, h2, h3, h4, h5⟩
    unfold detect_address_type detectCore
    rw [h1, h2, h3, h4, h5]
    simp

/-- Witness for C4: the plain (unpadded) EVM test address classifies as
EVM, a Tron-and-base58 string classifies as Tron, and `"not-an-address"`
is Unrecognized. -/
theorem c4_witness :
    detect_address_type evmTestAddr = .evm ∧
    detect_address_type ('T' :: List.replicate 33 'a') = .tron ∧
    detect_address_type "not-an-address".toList = .unknown :=
  ⟨(c4_classification evmTestAddr).1 (by decide),
   (c4_classification ('T' :: List.replicate 33 'a')).2.1 (by decide),
   (c4_classification "not-an-address".toList).2.2 (by decide)⟩

/-- Claim C2: once the address is valid and the resolved chain set
non-empty, `analyze` always returns a report; every chain whose provider
produced a summary contributes it to the report, regardless of what the
other chains did; and if every chain contributed nothing the report shows
zero activity. -/
theorem c2_partial_failure_tolerance (env : AnalyzeEnv) (addr : List Char)
    (chains : Option (List String))
    (h1 : detect_address_type (trimChars addr) ≠ .unknown)
    (h2 : resolveTargets (trimChars addr) chains ≠ []) :
    ∃ r, analyze env addr chains = .ok r ∧
      (∀ c ∈ resolveTargets (trimChars addr) chains,
        get_provider_exists c = true →
        ∀ s, providerRun env ⟨trimChars addr⟩
            (chainPrice env (resolveTargets (trimChars addr) chains) c) c =
          .ok (some s) →
        s ∈ r.chain_summaries) ∧
      ((∀ c ∈ resolveTargets (trimChars addr) chains,
          _analyze_chain (providerRun env ⟨trimChars addr⟩
            (chainPrice env (resolveTargets (trimChars addr) chains) c) c) =
            .ok none) →
        r.chain_summaries = [] ∧ r.total_transactions = 0) := by
  refine ⟨analyzeReport env (trimChars addr)
    (detect_address_type (trimChars addr))
    (resolveTargets (trimChars addr) chains),
    analyze_ok_of_valid env addr chains h1 h2, ?_, ?_⟩
  · intro c hc hprov s hs
    show s ∈ sortDescBy (fun s => s.total_transactions)
      (collectResults (analyzeResults env (trimChars addr)
        (resolveTargets (trimChars addr) chains))).1
    rw [mem_sortDescBy, collectResults_fst, analyzeResults, analyzeTasks,
      List.filterMap_map]
    apply List.mem_filterMap.mpr
    refine ⟨c, List.mem_filter.mpr ⟨hc, hprov⟩, ?_⟩
    show resultSummary (_analyze_chain (providerRun env ⟨trimChars addr⟩
      (chainPrice env (resolveTargets (trimChars addr) chains) c) c)) = some s
    rw [hs]
    rfl
  · intro hall
    have hnil : (collectResults (analyzeResults env (trimChars addr)
        (resolveTargets (trimChars addr) chains))).1 = [] := by
      rw [collectResults_fst, analyzeResults, analyzeTasks,
        List.filterMap_map]
      rw [List.filterMap_eq_nil_iff]
      intro c hcm
      have hc := List.mem_filter.mp hcm
      show resultSummary (_analyze_chain (providerRun env ⟨trimChars addr⟩
        (chainPrice env (resolveTargets (trimChars addr) chains) c) c)) = none
      rw [hall c hc.1]
      rfl
    constructor
    · show sortDescBy (fun s => s.total_transactions)
        (collectResults (analyzeResults env (trimChars addr)
          (resolveTargets (trimChars addr) chains))).1 = []
      rw [hnil]
      rfl
    · show ((sortDescBy (fun s => s.total_transactions)
        (collectResults (analyzeResults env (trimChars addr)
          (resolveTargets (trimChars addr) chains))).1).map
        (fun s => s.total_transactions)).sum = 0
      rw [hnil]
      rfl

/-- Witness for C2: on an all-failures environment a valid EVM address
still yields a report. -/
theorem c2_witness : ∃ r, analyze failEnv evmTestAddr none = .ok r := by
  obtain ⟨r, hr, -, -⟩ := c2_partial_failure_tolerance failEnv evmTestAddr
    none (by decide) (by decide)
  exact ⟨r, hr⟩

/-- Claim C3: the report's `total_transactions` is the sum over its chain
summaries, and `net_flow_usd` is `total_received_usd − total_sent_usd` to
within rounding (each of the three USD fields being independently rounded
to 2 decimals from the same unrounded sums). -/
theorem c3_aggregation (env : AnalyzeEnv) (addr : List Char)
    (chains : Option (List String)) (r : WalletReport)
    (h : analyze env addr chains = .ok r) :
    r.total_transactions =
      (r.chain_summaries.map (fun s => s.total_transactions)).sum ∧
    |r.net_flow_usd - (r.total_received_usd - r.total_sent_usd)| ≤ 3/200 := by
  obtain ⟨h1, h2, rfl⟩ := analyze_ok_inv env addr chains r h
  constructor
  · rfl
  · exact pyRound2_sub_bound _ _

/-- The report `analyze` produces for `evmTestAddr` on `failEnv`. -/
def wReport : WalletReport :=
  analyzeReport failEnv (trimChars evmTestAddr)
    (detect_address_type (trimChars evmTestAddr))
    (resolveTargets (trimChars evmTestAddr) none)

/-- Witness for C3 on the concrete all-failures report. -/
theorem c3_witness :
    wReport.total_transactions =
      (wReport.chain_summaries.map (fun s => s.total_transactions)).sum ∧
    |wReport.net_flow_usd -
      (wReport.total_received_usd - wReport.total_sent_usd)| ≤ 3/200 :=
  c3_aggregation failEnv evmTestAddr none wReport
    (analyze_ok_of_valid failEnv evmTestAddr none (by decide) (by decide))

/-- Claim C5: `chain_summaries` is non-increasing in `total_transactions`
and `all_token_holdings` is non-increasing in `balance_usd` in every
report `analyze` returns. -/
theorem c5_sort_order (env : AnalyzeEnv) (addr : List Char)
    (chains : Option (List String)) (r : WalletReport)
    (h : analyze env addr chains = .ok r) :
    List.Pairwise (fun a b : ChainSummary =>
      b.total_transactions ≤ a.total_transactions) r.chain_summaries ∧
    List.Pairwise (fun a b : TokenBalance =>
      b.balance_usd ≤ a.balance_usd) r.all_token_holdings := by
  obtain ⟨h1, h2, rfl⟩ := analyze_ok_inv env addr chains r h
  exact ⟨pairwise_sortDescBy (fun s : ChainSummary => s.total_transactions) _,
    pairwise_sortDescBy (fun t : TokenBalance => t.balance_usd) _⟩

/-- Witness for C5 on the concrete all-failures report. -/
theorem c5_witness :
    List.Pairwise (fun a b : ChainSummary =>
      b.total_transactions ≤ a.total_transactions) wReport.chain_summaries ∧
    List.Pairwise (fun a b : TokenBalance =>
      b.balance_usd ≤ a.balance_usd) wReport.all_token_holdings :=
  c5_sort_order failEnv evmTestAddr none wReport
    (analyze_ok_of_valid failEnv evmTestAddr none (by decide) (by decide))

/-- Claim C6: `analyze` fails exactly when classification of the stripped
address is Unrecognized or the resolved chain set is empty, and in the
Unrecognized case no network call (price fetch or provider query) is
issued. -/
theorem c6_invalid_address_exactly (env : AnalyzeEnv) (addr : List Char)
    (chains : Option (List String)) :
    ((∃ e, analyze env addr chains = .error e) ↔
      (detect_address_type (trimChars addr) = .unknown ∨
       resolveTargets (trimChars addr) chains = [])) ∧
    (detect_address_type (trimChars addr) = .unknown →
      (analyzeT env addr chains).2 = []) := by
  constructor
  · constructor
    · rintro ⟨e, he⟩
      by_contra hcon
      push_neg at hcon
      rw [analyze_ok_of_valid env addr chains hcon.1 hcon.2] at he
      exact absurd he (by simp)
    · rintro (h1 | h2)
      · refine ⟨.valueError ("Unrecognized address format: " ++
          (⟨trimChars addr⟩ : String)), ?_⟩
        show (analyzeT env addr chains).1 = _
        rw [analyze_error_of_unknown env addr chains h1]
      · by_cases h1 : detect_address_type (trimChars addr) = .unknown
        · refine ⟨.valueError ("Unrecognized address format: " ++
            (⟨trimChars addr⟩ : String)), ?_⟩
          show (analyzeT env addr chains).1 = _
          rw [analyze_error_of_unknown env addr chains h1]
        · refine ⟨.valueError ("No supported chains for address type: " ++
            (detect_address_type (trimChars addr)).value), ?_⟩
          show (analyzeT env addr chains).1 = _
          rw [analyze_error_of_no_chains env addr chains h1 h2]
  · intro h1
    rw [analyze_error_of_unknown env addr chains h1]

/-- Witness for C6 on the spec's own example `"not-an-address"`. -/
theorem c6_witness :
    (∃ e, analyze failEnv "not-an-address".toList none = .error e) ∧
    (analyzeT failEnv "not-an-address".toList none).2 = [] :=
  ⟨(c6_invalid_address_exactly failEnv "not-an-address".toList none).1.mpr
      (Or.inl (by decide)),
   (c6_invalid_address_exactly failEnv "not-an-address".toList none).2
      (by decide)⟩

end WalletAgent
